import Mathlib

/-!
Verification development for the `xgboost_customer_churn.ipynb` notebook of the
sagemaker-immersion-day repository.

The notebook is a single linear script: it reads a local CSV, creates an S3
bucket (tolerating failure of that one call), uploads two CSV splits, builds a
hyperparameter dictionary, submits two training jobs (built-in algorithm mode,
then framework mode with an entry-point script), deploys the algorithm-mode
model to a named endpoint, sends one inference request per line of a local test
file with a fixed delay between requests, and finally deletes the endpoint.

We embed the notebook as a program over an explicit trace of external effects.
External inputs that the notebook merely receives (AWS region, account id, the
`gmtime` timestamp string, the contents of `data/test_sample.csv`, the
endpoint's responses, the resolved docker image URI) are fields of an `Env`
record.  Fallible external calls are numbered in program order; the parameter
`fa : Option Nat` designates which call (if any) raises, which lets us state
exactly which failures the notebook survives (only the bucket-creation call is
wrapped in `try/except`) and which propagate uncaught.
-/

/-- Which of the two estimators a training/deployment effect belongs to:
`sagemaker.estimator.Estimator` (built-in algorithm mode) or
`sagemaker.xgboost.XGBoost` (framework / entry-point mode). -/
inductive TrainMode
  | algorithmMode
  | frameworkMode
deriving DecidableEq

/-- A data channel as passed to `fit`: the channel name is the key of the dict
(`train` / `validation`), and the URI and content type come from the
`sagemaker.s3_input` object. -/
structure Channel where
  name : String
  s3Uri : String
  contentType : String
deriving DecidableEq

/-- One external effect of the notebook, in the order the source issues them.
Hyperparameter values are carried as the strings the SDK submits
(`time.sleep(0.5)` is recorded in milliseconds to stay within `Nat`). -/
inductive Effect
  | readLocalCSV (path : String)
  | getCallerIdentity
  | createBucket (bucketName : String) (locationConstraint : Option String)
  | printMsg (msg : String)
  | s3Upload (localPath : String) (destUri : String)
  | getImageUri (region : String) (algo : String)
  | buildHyperparams (hp : List (String × String))
  | trainingJob (mode : TrainMode) (image : String) (entryPoint : Option String)
      (hp : List (String × String)) (channels : List Channel)
  | displayScript (path : String)
  | deployEndpoint (endpointName : String) (model : TrainMode)
      (initialInstanceCount : Nat) (instanceType : String)
  | openFile (path : String)
  | invokeEndpoint (endpointName : String) (payload : String)
  | sleepMs (ms : Nat)
  | deleteEndpoint (endpointName : String)
deriving DecidableEq

/-- The ambient data the notebook receives from outside: the session region and
account id, the `strftime("%Y-%m-%d-%H-%M-%S", gmtime())` string evaluated when
the endpoint name is built, the text content of `data/test_sample.csv` (as
decoded by Python text-mode reading), the endpoint's textual response to a
payload, and the image URI returned by `get_image_uri`. -/
structure Env where
  region : String
  accountId : String
  timestamp : String
  testSample : String
  respond : String → String
  imageUri : String

/-- Python file iteration in text mode: the lines of `s`, each keeping its
trailing newline; a final segment without a newline is kept as-is, and an empty
file yields no lines. -/
def pyLinesAux : List Char → List Char → List String
  | acc, [] => if acc.isEmpty then [] else [String.mk acc.reverse]
  | acc, c :: rest =>
      if c = '\n' then String.mk (acc.reverse ++ ['\n']) :: pyLinesAux [] rest
      else pyLinesAux (c :: acc) rest

/-- The list of lines `for row in f` iterates over, Python semantics. -/
def pyLines (s : String) : List String := pyLinesAux [] s.data

/-- Python's `row.rstrip('\n')`: remove every trailing newline character,
leaving all other characters (commas, carriage returns, ...) unchanged. -/
def rstripNewlines (s : String) : String :=
  String.mk (s.data.reverse.dropWhile (fun c => c = '\n')).reverse

/-- The outcome of running a program segment: the effects it emitted in order,
the next fallible-call index, and either success or the index of the external
call whose exception escaped. -/
structure Out (α : Type) where
  trace : List Effect
  next : Nat
  result : Except Nat α

/-- Programs: given the designated failing call (if any) and the current call
index, produce the emitted trace, the next index, and the result. -/
def M (α : Type) : Type := Option Nat → Nat → Out α

def M.pure {α : Type} (a : α) : M α := fun _ i => ⟨[], i, Except.ok a⟩

def M.bind {α β : Type} (x : M α) (f : α → M β) : M β := fun fa i =>
  match x fa i with
  | ⟨tr, i', Except.ok a⟩ =>
      ⟨tr ++ (f a fa i').trace, (f a fa i').next, (f a fa i').result⟩
  | ⟨tr, i', Except.error e⟩ => ⟨tr, i', Except.error e⟩

instance : Monad M where
  pure := M.pure
  bind := M.bind

/-- A local, infallible step (a `print`, a `sleep`, building a dict, ...). -/
def emit (e : Effect) : M Unit := fun _ i => ⟨[e], i, Except.ok ()⟩

/-- A fallible external call with no handler around it: if this call is the
designated failing one, the exception escapes the program. -/
def call (e : Effect) : M Unit := fun fa i =>
  ⟨[e], i + 1, if fa = some i then Except.error i else Except.ok ()⟩

/-- A fallible external call wrapped in `try/except Exception`: on failure the
handler effect (the consolation `print`) runs and execution continues. -/
def callTry (e handler : Effect) : M Unit := fun fa i =>
  ⟨if fa = some i then [e, handler] else [e], i + 1, Except.ok ()⟩

/-- `local_data_path` of the notebook. -/
def local_data_path : String := "./data/training-dataset-with-header.csv"

/-- `bucket = 'sagemaker-{}-{}'.format(sess.region_name, account_id)`. -/
def bucket (env : Env) : String :=
  "sagemaker-" ++ env.region ++ "-" ++ env.accountId

/-- The `CreateBucketConfiguration` the notebook passes: none for us-east-1,
otherwise a `LocationConstraint` equal to the session region. -/
def bucketLocation (env : Env) : Option String :=
  if env.region = "us-east-1" then none else some env.region

/-- Destination URI of the train upload:
`'s3://{}/{}/{}'.format(bucket, prefix, 'train')` with `prefix = 'xgboost-churn'`. -/
def trainUploadUri (env : Env) : String :=
  "s3://" ++ bucket env ++ "/xgboost-churn/train"

/-- Destination URI of the validation upload. -/
def validationUploadUri (env : Env) : String :=
  "s3://" ++ bucket env ++ "/xgboost-churn/validation"

/-- The hyperparameter dictionary of the notebook, values as the strings the
SDK serializes them to. -/
def hyperparams : List (String × String) :=
  [("max_depth", "5"), ("subsample", "0.8"), ("num_round", "600"),
   ("eta", "0.2"), ("gamma", "4"), ("min_child_weight", "6"),
   ("silent", "0"), ("objective", "binary:logistic")]

/-- `s3_input_train`: content type csv, pointing at the train upload URI. -/
def s3_input_train (env : Env) : Channel :=
  { name := "train"
    s3Uri := "s3://" ++ bucket env ++ "/xgboost-churn/train"
    contentType := "csv" }

/-- `s3_input_validation`: content type csv; note the source writes this URI
with a trailing slash (`'s3://{}/{}/validation/'`). -/
def s3_input_validation (env : Env) : Channel :=
  { name := "validation"
    s3Uri := "s3://" ++ bucket env ++ "/xgboost-churn/validation/"
    contentType := "csv" }

/-- The channel dictionary passed to both `fit` calls. -/
def channels (env : Env) : List Channel :=
  [s3_input_train env, s3_input_validation env]

/-- `endpoint_name = "demo-xgboost-customer-churn-" + strftime("%Y-%m-%d-%H-%M-%S", gmtime())`. -/
def endpoint_name (env : Env) : String :=
  "demo-xgboost-customer-churn-" ++ env.timestamp

/-- The message printed by the `except` handler around bucket creation. -/
def bucketExistsMsg : Effect :=
  Effect.printMsg
    "Looks like you already have a bucket of this name. That's good. Uploading the data files..."

/-- The inference loop of the notebook: for each row of the test file, strip
trailing newlines, send one request, print the response, sleep 0.5 s. -/
def inferLoop (env : Env) : List String → M Unit
  | [] => M.pure ()
  | row :: rest =>
      M.bind (call (Effect.invokeEndpoint (endpoint_name env) (rstripNewlines row)))
        (fun _ =>
      M.bind (emit (Effect.printMsg (env.respond (rstripNewlines row))))
        (fun _ =>
      M.bind (emit (Effect.sleepMs 500))
        (fun _ => inferLoop env rest)))

/-- The whole notebook, cells in execution order. -/
def notebookM (env : Env) : M Unit :=
  M.bind (call (Effect.readLocalCSV local_data_path)) (fun _ =>
  M.bind (call Effect.getCallerIdentity) (fun _ =>
  M.bind (callTry (Effect.createBucket (bucket env) (bucketLocation env)) bucketExistsMsg) (fun _ =>
  M.bind (call (Effect.s3Upload "data/train.csv" (trainUploadUri env))) (fun _ =>
  M.bind (emit (Effect.printMsg (trainUploadUri env))) (fun _ =>
  M.bind (call (Effect.s3Upload "data/validation.csv" (validationUploadUri env))) (fun _ =>
  M.bind (emit (Effect.printMsg (validationUploadUri env))) (fun _ =>
  M.bind (call (Effect.getImageUri env.region "xgboost")) (fun _ =>
  M.bind (emit (Effect.buildHyperparams hyperparams)) (fun _ =>
  M.bind (call (Effect.trainingJob TrainMode.algorithmMode env.imageUri none
      hyperparams (channels env))) (fun _ =>
  M.bind (emit (Effect.displayScript "xgboost_customer_churn.py")) (fun _ =>
  M.bind (call (Effect.trainingJob TrainMode.frameworkMode env.imageUri
      (some "xgboost_customer_churn.py") hyperparams (channels env))) (fun _ =>
  M.bind (emit (Effect.printMsg ("EndpointName = " ++ endpoint_name env))) (fun _ =>
  M.bind (call (Effect.deployEndpoint (endpoint_name env) TrainMode.algorithmMode 1 "ml.m5.large")) (fun _ =>
  M.bind (emit (Effect.printMsg
      ("Sending test traffic to the endpoint " ++ endpoint_name env ++ ". \nPlease wait for a minute..."))) (fun _ =>
  M.bind (call (Effect.openFile "data/test_sample.csv")) (fun _ =>
  M.bind (inferLoop env (pyLines env.testSample)) (fun _ =>
  call (Effect.deleteEndpoint (endpoint_name env)))))))))))))))))))

/-- Run the notebook with failing call `fa`: the emitted trace and either
normal completion or the index of the escaping exception. -/
def runNotebook (env : Env) (fa : Option Nat) : List Effect × Except Nat Unit :=
  ⟨(notebookM env fa 0).trace, (notebookM env fa 0).result⟩

/-- The trace of the failure-free run. -/
def notebookTrace (env : Env) : List Effect := (runNotebook env none).1

/-- Number of fallible external calls the notebook makes: ten straight-line
calls, one request per test line, and the endpoint deletion. -/
def numCalls (env : Env) : Nat := 11 + (pyLines env.testSample).length

/-- Per-row effects of the inference loop. -/
def perRow (env : Env) (row : String) : List Effect :=
  [Effect.invokeEndpoint (endpoint_name env) (rstripNewlines row),
   Effect.printMsg (env.respond (rstripNewlines row)),
   Effect.sleepMs 500]

/-- The effects the inference loop emits for a list of rows. -/
def loopTrace (env : Env) : List String → List Effect
  | [] => []
  | row :: rest => perRow env row ++ loopTrace env rest

/-- The effects before the inference loop; `bucketFailed` records whether the
bucket-creation call raised (adding the consolation print). -/
def preTrace (env : Env) (bucketFailed : Bool) : List Effect :=
  [Effect.readLocalCSV local_data_path,
   Effect.getCallerIdentity,
   Effect.createBucket (bucket env) (bucketLocation env)] ++
  (if bucketFailed then [bucketExistsMsg] else []) ++
  [Effect.s3Upload "data/train.csv" (trainUploadUri env),
   Effect.printMsg (trainUploadUri env),
   Effect.s3Upload "data/validation.csv" (validationUploadUri env),
   Effect.printMsg (validationUploadUri env),
   Effect.getImageUri env.region "xgboost",
   Effect.buildHyperparams hyperparams,
   Effect.trainingJob TrainMode.algorithmMode env.imageUri none hyperparams (channels env),
   Effect.displayScript "xgboost_customer_churn.py",
   Effect.trainingJob TrainMode.frameworkMode env.imageUri
     (some "xgboost_customer_churn.py") hyperparams (channels env),
   Effect.printMsg ("EndpointName = " ++ endpoint_name env),
   Effect.deployEndpoint (endpoint_name env) TrainMode.algorithmMode 1 "ml.m5.large",
   Effect.printMsg
     ("Sending test traffic to the endpoint " ++ endpoint_name env ++ ". \nPlease wait for a minute..."),
   Effect.openFile "data/test_sample.csv"]

/-- The full trace of a completed run. -/
def fullTrace (env : Env) (bucketFailed : Bool) : List Effect :=
  preTrace env bucketFailed ++ loopTrace env (pyLines env.testSample) ++
    [Effect.deleteEndpoint (endpoint_name env)]

lemma call_bind {α : Type} (e : Effect) (f : Unit → M α) (fa : Option Nat) (i : Nat) :
    M.bind (call e) f fa i =
      if fa = some i then ⟨[e], i + 1, Except.error i⟩
      else ⟨e :: (f () fa (i + 1)).trace, (f () fa (i + 1)).next, (f () fa (i + 1)).result⟩ := by
  by_cases h : fa = some i <;> simp [M.bind, call, h]

lemma emit_bind {α : Type} (e : Effect) (f : Unit → M α) (fa : Option Nat) (i : Nat) :
    M.bind (emit e) f fa i =
      ⟨e :: (f () fa i).trace, (f () fa i).next, (f () fa i).result⟩ := by
  simp [M.bind, emit]

lemma callTry_bind {α : Type} (e h' : Effect) (f : Unit → M α) (fa : Option Nat) (i : Nat) :
    M.bind (callTry e h') f fa i =
      ⟨(if fa = some i then [e, h'] else [e]) ++ (f () fa (i + 1)).trace,
        (f () fa (i + 1)).next, (f () fa (i + 1)).result⟩ := by
  simp [M.bind, callTry]

lemma M.bind_result_error {α β : Type} (x : M α) (f : α → M β) (fa : Option Nat)
    (i e : Nat) (h : (x fa i).result = Except.error e) :
    (M.bind x f fa i).result = Except.error e := by
  unfold M.bind
  rcases hx : x fa i with ⟨tr, i', r⟩
  rw [hx] at h
  simp only at h
  subst h
  simp

/-- If no call index in the loop's range fails, the loop completes and emits
exactly its canonical trace. -/
lemma inferLoop_ok (env : Env) (rows : List String) (fa : Option Nat) (i : Nat)
    (h : ∀ j, i ≤ j → j < i + rows.length → fa ≠ some j) :
    inferLoop env rows fa i = ⟨loopTrace env rows, i + rows.length, Except.ok ()⟩ := by
  induction rows generalizing i with
  | nil => simp [inferLoop, loopTrace, M.pure]
  | cons row rest ih =>
      have hne : fa ≠ some i := h i le_rfl (by simp)
      have hrest : inferLoop env rest fa (i + 1)
          = ⟨loopTrace env rest, (i + 1) + rest.length, Except.ok ()⟩ :=
        ih (i + 1) (fun j hj1 hj2 => h j (by omega) (by simp; omega))
      simp [inferLoop, call_bind, emit_bind, hne, hrest, loopTrace, perRow]
      omega

/-- If the designated failing call lies inside the loop's range, the loop's
result is that uncaught exception. -/
lemma inferLoop_err (env : Env) (rows : List String) (fa : Option Nat) (i j : Nat)
    (hfa : fa = some j) (h1 : i ≤ j) (h2 : j < i + rows.length) :
    (inferLoop env rows fa i).result = Except.error j := by
  induction rows generalizing i with
  | nil => simp at h2; omega
  | cons row rest ih =>
      by_cases hij : j = i
      · subst hij hfa
        simp [inferLoop, call_bind]
      · have hne : fa ≠ some i := by simp [hfa]; omega
        have : (inferLoop env rest fa (i + 1)).result = Except.error j :=
          ih (i + 1) (by omega) (by simp at h2 ⊢; omega)
        simp [inferLoop, call_bind, emit_bind, hne]
        exact this

lemma call_apply (e : Effect) (fa : Option Nat) (i : Nat) :
    call e fa i = ⟨[e], i + 1, if fa = some i then Except.error i else Except.ok ()⟩ := rfl

lemma bind_of_ok {α β : Type} (x : M α) (f : α → M β) (fa : Option Nat) (i : Nat)
    (tr : List Effect) (i' : Nat) (a : α) (hx : x fa i = ⟨tr, i', Except.ok a⟩) :
    M.bind x f fa i =
      ⟨tr ++ (f a fa i').trace, (f a fa i').next, (f a fa i').result⟩ := by
  unfold M.bind
  rw [hx]

/-- The failure-free run completes and emits the canonical trace. -/
lemma run_none (env : Env) :
    runNotebook env none = ⟨fullTrace env false, Except.ok ()⟩ := by
  have hloop := inferLoop_ok env (pyLines env.testSample) none 10
    (by intro k h1 h2 h; cases h)
  have hbind := bind_of_ok _
    (fun _ : Unit => call (Effect.deleteEndpoint (endpoint_name env))) none 10 _ _ _ hloop
  simp [runNotebook, notebookM, call_bind, emit_bind, callTry_bind, hbind,
    call_apply, fullTrace, preTrace]

/-- When the bucket-creation call (index 2) raises, the handler print runs and
the run still completes, with the full trace including the consolation print. -/
lemma run_bucket_fail (env : Env) :
    runNotebook env (some 2) = ⟨fullTrace env true, Except.ok ()⟩ := by
  have hloop := inferLoop_ok env (pyLines env.testSample) (some 2) 10
    (by intro k h1 h2 h; simp at h; omega)
  have hbind := bind_of_ok _
    (fun _ : Unit => call (Effect.deleteEndpoint (endpoint_name env))) (some 2) 10 _ _ _ hloop
  have hD2 : ((some 2 : Option Nat) = some (10 + (pyLines env.testSample).length)) = False := by
    simp; omega
  simp [runNotebook, notebookM, call_bind, emit_bind, callTry_bind, hbind,
    call_apply, hD2, fullTrace, preTrace]

/-- A designated failing index at or past the last call is never reached: the
run completes with the canonical trace. -/
lemma run_late_fail (env : Env) (j : Nat) (hj : numCalls env ≤ j) :
    runNotebook env (some j) = ⟨fullTrace env false, Except.ok ()⟩ := by
  have hlen : 11 + (pyLines env.testSample).length ≤ j := hj
  have hloop := inferLoop_ok env (pyLines env.testSample) (some j) 10
    (by intro k h1 h2 h; simp at h; omega)
  have h0 : ((some j : Option Nat) = some 0) = False := by simp; omega
  have h1 : ((some j : Option Nat) = some 1) = False := by simp; omega
  have h2 : ((some j : Option Nat) = some 2) = False := by simp; omega
  have h3 : ((some j : Option Nat) = some 3) = False := by simp; omega
  have h4 : ((some j : Option Nat) = some 4) = False := by simp; omega
  have h5 : ((some j : Option Nat) = some 5) = False := by simp; omega
  have h6 : ((some j : Option Nat) = some 6) = False := by simp; omega
  have h7 : ((some j : Option Nat) = some 7) = False := by simp; omega
  have h8 : ((some j : Option Nat) = some 8) = False := by simp; omega
  have h9 : ((some j : Option Nat) = some 9) = False := by simp; omega
  have hD : ((some j : Option Nat) = some (10 + (pyLines env.testSample).length)) = False := by
    simp; omega
  have hbind := bind_of_ok _
    (fun _ : Unit => call (Effect.deleteEndpoint (endpoint_name env))) (some j) 10 _ _ _ hloop
  simp [runNotebook, notebookM, call_bind, emit_bind, callTry_bind, hbind,
    call_apply, h0, h1, h2, h3, h4, h5, h6, h7, h8, h9, hD, fullTrace, preTrace]

/-- Any designated failing call other than bucket creation makes its exception
escape the whole program. -/
lemma run_err (env : Env) (j : Nat) (hne : j ≠ 2) (hlt : j < numCalls env) :
    (runNotebook env (some j)).2 = Except.error j := by
  by_cases hj : j < 10
  · interval_cases j <;>
      simp_all [runNotebook, notebookM, call_bind, emit_bind, callTry_bind]
  · push_neg at hj
    have hlen : j < 11 + (pyLines env.testSample).length := hlt
    have h0 : ((some j : Option Nat) = some 0) = False := by simp; omega
    have h1 : ((some j : Option Nat) = some 1) = False := by simp; omega
    have h2 : ((some j : Option Nat) = some 2) = False := by simp; omega
    have h3 : ((some j : Option Nat) = some 3) = False := by simp; omega
    have h4 : ((some j : Option Nat) = some 4) = False := by simp; omega
    have h5 : ((some j : Option Nat) = some 5) = False := by simp; omega
    have h6 : ((some j : Option Nat) = some 6) = False := by simp; omega
    have h7 : ((some j : Option Nat) = some 7) = False := by simp; omega
    have h8 : ((some j : Option Nat) = some 8) = False := by simp; omega
    have h9 : ((some j : Option Nat) = some 9) = False := by simp; omega
    by_cases hloopRange : j < 10 + (pyLines env.testSample).length
    · simp [runNotebook, notebookM, call_bind, emit_bind, callTry_bind,
        h0, h1, h2, h3, h4, h5, h6, h7, h8, h9]
      exact M.bind_result_error _ _ _ _ _
        (inferLoop_err env (pyLines env.testSample) (some j) 10 j rfl (by omega) (by omega))
    · have hjD : j = 10 + (pyLines env.testSample).length := by omega
      subst hjD
      have hloop := inferLoop_ok env (pyLines env.testSample)
        (some (10 + (pyLines env.testSample).length)) 10
        (by intro k hk1 hk2 h; simp at h; omega)
      have hbind := bind_of_ok _
        (fun _ : Unit => call (Effect.deleteEndpoint (endpoint_name env)))
        (some (10 + (pyLines env.testSample).length)) 10 _ _ _ hloop
      simp [runNotebook, notebookM, call_bind, emit_bind, callTry_bind, hbind,
        call_apply, h0, h1, h2, h3, h4, h5, h6, h7, h8, h9]

/-- Every run whose result is `ok` emitted one of the two canonical traces:
the failure-free one, or the one where bucket creation raised. -/
lemma run_complete_cases (env : Env) (fa : Option Nat)
    (h : (runNotebook env fa).2 = Except.ok ()) :
    (runNotebook env fa).1 = fullTrace env false ∨
      (runNotebook env fa).1 = fullTrace env true := by
  rcases fa with _ | j
  · left; rw [run_none]
  · by_cases hj2 : j = 2
    · subst hj2; right; rw [run_bucket_fail]
    · by_cases hjlt : j < numCalls env
      · exact absurd h (by rw [run_err env j hj2 hjlt]; simp)
      · left; rw [run_late_fail env j (by omega)]

/-- The step of the spec's linear flow an effect belongs to, `none` for
auxiliary effects (status prints, the bucket setup, sleeps, ...). -/
def stepOf : Effect → Option Nat
  | Effect.readLocalCSV _ => some 1
  | Effect.s3Upload _ _ => some 2
  | Effect.buildHyperparams _ => some 3
  | Effect.trainingJob _ _ _ _ _ => some 4
  | Effect.deployEndpoint _ _ _ _ => some 5
  | Effect.invokeEndpoint _ _ => some 6
  | Effect.deleteEndpoint _ => some 7
  | _ => none

/-- The mode of each training-job submission, in trace order. -/
def trainModesOf (tr : List Effect) : List TrainMode :=
  tr.filterMap fun e =>
    match e with
    | Effect.trainingJob m _ _ _ _ => some m
    | _ => none

/-- The payload of each inference request, in trace order. -/
def payloadsOf (tr : List Effect) : List String :=
  tr.filterMap fun e =>
    match e with
    | Effect.invokeEndpoint _ p => some p
    | _ => none

/-- Endpoint name and source model of each deployment, in trace order. -/
def deploysOf (tr : List Effect) : List (String × TrainMode) :=
  tr.filterMap fun e =>
    match e with
    | Effect.deployEndpoint n m _ _ => some (n, m)
    | _ => none

/-- The name passed to each endpoint deletion, in trace order. -/
def deletesOf (tr : List Effect) : List String :=
  tr.filterMap fun e =>
    match e with
    | Effect.deleteEndpoint n => some n
    | _ => none

/-- Local path and destination URI of each object-storage upload. -/
def uploadsOf (tr : List Effect) : List (String × String) :=
  tr.filterMap fun e =>
    match e with
    | Effect.s3Upload l d => some (l, d)
    | _ => none

/-- Mode, hyperparameters and channels of each training-job submission. -/
def fitsOf (tr : List Effect) : List (TrainMode × List (String × String) × List Channel) :=
  tr.filterMap fun e =>
    match e with
    | Effect.trainingJob m _ _ hp chs => some (m, hp, chs)
    | _ => none

/-- The duration of each sleep, in trace order (milliseconds). -/
def sleepsOf (tr : List Effect) : List Nat :=
  tr.filterMap fun e =>
    match e with
    | Effect.sleepMs k => some k
    | _ => none

/-- Bucket name and location constraint of each bucket creation. -/
def bucketCreatesOf (tr : List Effect) : List (String × Option String) :=
  tr.filterMap fun e =>
    match e with
    | Effect.createBucket b loc => some (b, loc)
    | _ => none

/-- Endpoint name and payload of every inference request. -/
def invokesOf (tr : List Effect) : List (String × String) :=
  tr.filterMap fun e =>
    match e with
    | Effect.invokeEndpoint n p => some (n, p)
    | _ => none

/-- Requests and delays only, in trace order. -/
def reqDelayProj (tr : List Effect) : List Effect :=
  tr.filterMap fun e =>
    match e with
    | Effect.invokeEndpoint n p => some (Effect.invokeEndpoint n p)
    | Effect.sleepMs k => some (Effect.sleepMs k)
    | _ => none

/-- Whether an effect refers to the model trained by the given estimator. -/
def usesModel (m : TrainMode) (e : Effect) : Bool :=
  match e with
  | Effect.trainingJob m' _ _ _ _ => m' = m
  | Effect.deployEndpoint _ m' _ _ => m' = m
  | _ => false

lemma payloadsOf_loopTrace (env : Env) (rows : List String) :
    payloadsOf (loopTrace env rows) = rows.map rstripNewlines := by
  induction rows with
  | nil => simp [loopTrace, payloadsOf]
  | cons r rest ih => simp [loopTrace, perRow, payloadsOf] at ih ⊢; exact ih

lemma invokesOf_loopTrace (env : Env) (rows : List String) :
    invokesOf (loopTrace env rows)
      = rows.map (fun r => (endpoint_name env, rstripNewlines r)) := by
  induction rows with
  | nil => simp [loopTrace, invokesOf]
  | cons r rest ih => simp [loopTrace, perRow, invokesOf] at ih ⊢; exact ih

lemma stepOf_loopTrace (env : Env) (rows : List String) :
    (loopTrace env rows).filterMap stepOf = List.replicate rows.length 6 := by
  induction rows with
  | nil => simp [loopTrace]
  | cons r rest ih =>
      simp [loopTrace, perRow, stepOf, List.replicate_succ] at ih ⊢; exact ih

lemma sleepsOf_loopTrace (env : Env) (rows : List String) :
    sleepsOf (loopTrace env rows) = List.replicate rows.length 500 := by
  induction rows with
  | nil => simp [loopTrace, sleepsOf]
  | cons r rest ih =>
      simp [loopTrace, perRow, sleepsOf, List.replicate_succ] at ih ⊢; exact ih

lemma reqDelayProj_loopTrace (env : Env) (rows : List String) :
    reqDelayProj (loopTrace env rows)
      = (rows.map (fun r =>
          [Effect.invokeEndpoint (endpoint_name env) (rstripNewlines r),
           Effect.sleepMs 500])).flatten := by
  induction rows with
  | nil => simp [loopTrace, reqDelayProj]
  | cons r rest ih => simp [loopTrace, perRow, reqDelayProj] at ih ⊢; exact ih

lemma deploysOf_loopTrace (env : Env) (rows : List String) :
    deploysOf (loopTrace env rows) = [] := by
  induction rows with
  | nil => simp [loopTrace, deploysOf]
  | cons r rest ih => simp [loopTrace, perRow, deploysOf] at ih ⊢; exact ih

lemma deletesOf_loopTrace (env : Env) (rows : List String) :
    deletesOf (loopTrace env rows) = [] := by
  induction rows with
  | nil => simp [loopTrace, deletesOf]
  | cons r rest ih => simp [loopTrace, perRow, deletesOf] at ih ⊢; exact ih

lemma uploadsOf_loopTrace (env : Env) (rows : List String) :
    uploadsOf (loopTrace env rows) = [] := by
  induction rows with
  | nil => simp [loopTrace, uploadsOf]
  | cons r rest ih => simp [loopTrace, perRow, uploadsOf] at ih ⊢; exact ih

lemma fitsOf_loopTrace (env : Env) (rows : List String) :
    fitsOf (loopTrace env rows) = [] := by
  induction rows with
  | nil => simp [loopTrace, fitsOf]
  | cons r rest ih => simp [loopTrace, perRow, fitsOf] at ih ⊢; exact ih

lemma trainModesOf_loopTrace (env : Env) (rows : List String) :
    trainModesOf (loopTrace env rows) = [] := by
  induction rows with
  | nil => simp [loopTrace, trainModesOf]
  | cons r rest ih => simp [loopTrace, perRow, trainModesOf] at ih ⊢; exact ih

lemma bucketCreatesOf_loopTrace (env : Env) (rows : List String) :
    bucketCreatesOf (loopTrace env rows) = [] := by
  induction rows with
  | nil => simp [loopTrace, bucketCreatesOf]
  | cons r rest ih => simp [loopTrace, perRow, bucketCreatesOf] at ih ⊢; exact ih

lemma usesModel_loopTrace (env : Env) (rows : List String) (m : TrainMode) :
    (loopTrace env rows).filter (usesModel m) = [] := by
  induction rows with
  | nil => simp [loopTrace]
  | cons r rest ih => simp [loopTrace, perRow, usesModel, List.filter] at ih ⊢; exact ih

lemma notebookTrace_eq (env : Env) : notebookTrace env = fullTrace env false := by
  unfold notebookTrace
  rw [run_none]

lemma proj_append_payloads (a b : List Effect) :
    payloadsOf (a ++ b) = payloadsOf a ++ payloadsOf b := by
  simp [payloadsOf]

lemma proj_append_invokes (a b : List Effect) :
    invokesOf (a ++ b) = invokesOf a ++ invokesOf b := by
  simp [invokesOf]

lemma proj_append_deploys (a b : List Effect) :
    deploysOf (a ++ b) = deploysOf a ++ deploysOf b := by
  simp [deploysOf]

lemma proj_append_deletes (a b : List Effect) :
    deletesOf (a ++ b) = deletesOf a ++ deletesOf b := by
  simp [deletesOf]

lemma proj_append_uploads (a b : List Effect) :
    uploadsOf (a ++ b) = uploadsOf a ++ uploadsOf b := by
  simp [uploadsOf]

lemma proj_append_fits (a b : List Effect) :
    fitsOf (a ++ b) = fitsOf a ++ fitsOf b := by
  simp [fitsOf]

lemma proj_append_sleeps (a b : List Effect) :
    sleepsOf (a ++ b) = sleepsOf a ++ sleepsOf b := by
  simp [sleepsOf]

lemma proj_append_bucketCreates (a b : List Effect) :
    bucketCreatesOf (a ++ b) = bucketCreatesOf a ++ bucketCreatesOf b := by
  simp [bucketCreatesOf]

lemma proj_append_reqDelay (a b : List Effect) :
    reqDelayProj (a ++ b) = reqDelayProj a ++ reqDelayProj b := by
  simp [reqDelayProj]

lemma proj_append_trainModes (a b : List Effect) :
    trainModesOf (a ++ b) = trainModesOf a ++ trainModesOf b := by
  simp [trainModesOf]

lemma chain_replicate_seven (n : Nat) :
    List.Chain' (fun a b => a ≤ b) (List.replicate n (6 : Nat) ++ [7]) := by
  induction n with
  | zero => simp
  | succ k ih =>
      rw [List.replicate_succ, List.cons_append, List.chain'_cons']
      refine ⟨?_, ih⟩
      intro y hy
      rcases k with _ | k <;> simp [List.replicate_succ] at hy <;> omega

lemma chain_canonical (n : Nat) :
    List.Chain' (fun a b => a ≤ b)
      (([1, 2, 2, 3, 4, 4, 5] : List Nat) ++ (List.replicate n 6 ++ [7])) := by
  apply List.Chain'.append
  · simp [List.chain'_cons']
  · exact chain_replicate_seven n
  · intro x hx y hy
    simp at hx
    subst hx
    rcases n with _ | k
    · simp at hy; omega
    · simp [List.replicate_succ] at hy; omega

lemma stepOf_fullTrace (env : Env) (b : Bool) :
    (fullTrace env b).filterMap stepOf
      = [1, 2, 2, 3, 4, 4, 5] ++ (List.replicate (pyLines env.testSample).length 6 ++ [7]) := by
  cases b
  all_goals
    simp only [fullTrace, List.filterMap_append, stepOf_loopTrace]
    simp [preTrace, stepOf, bucketExistsMsg]

lemma trainModesOf_fullTrace (env : Env) (b : Bool) :
    trainModesOf (fullTrace env b) = [TrainMode.algorithmMode, TrainMode.frameworkMode] := by
  cases b
  all_goals
    simp only [fullTrace, proj_append_trainModes, trainModesOf_loopTrace]
    simp [preTrace, trainModesOf, bucketExistsMsg]

lemma payloadsOf_fullTrace (env : Env) (b : Bool) :
    payloadsOf (fullTrace env b) = (pyLines env.testSample).map rstripNewlines := by
  cases b
  all_goals
    simp only [fullTrace, proj_append_payloads, payloadsOf_loopTrace]
    simp [preTrace, payloadsOf, bucketExistsMsg]

lemma invokesOf_fullTrace (env : Env) (b : Bool) :
    invokesOf (fullTrace env b)
      = (pyLines env.testSample).map (fun r => (endpoint_name env, rstripNewlines r)) := by
  cases b
  all_goals
    simp only [fullTrace, proj_append_invokes, invokesOf_loopTrace]
    simp [preTrace, invokesOf, bucketExistsMsg]

lemma deploysOf_fullTrace (env : Env) (b : Bool) :
    deploysOf (fullTrace env b) = [(endpoint_name env, TrainMode.algorithmMode)] := by
  cases b
  all_goals
    simp only [fullTrace, proj_append_deploys, deploysOf_loopTrace]
    simp [preTrace, deploysOf, bucketExistsMsg]

lemma deletesOf_fullTrace (env : Env) (b : Bool) :
    deletesOf (fullTrace env b) = [endpoint_name env] := by
  cases b
  all_goals
    simp only [fullTrace, proj_append_deletes, deletesOf_loopTrace]
    simp [preTrace, deletesOf, bucketExistsMsg]

lemma uploadsOf_fullTrace (env : Env) (b : Bool) :
    uploadsOf (fullTrace env b)
      = [("data/train.csv", trainUploadUri env),
         ("data/validation.csv", validationUploadUri env)] := by
  cases b
  all_goals
    simp only [fullTrace, proj_append_uploads, uploadsOf_loopTrace]
    simp [preTrace, uploadsOf, bucketExistsMsg]

lemma fitsOf_fullTrace (env : Env) (b : Bool) :
    fitsOf (fullTrace env b)
      = [(TrainMode.algorithmMode, hyperparams, channels env),
         (TrainMode.frameworkMode, hyperparams, channels env)] := by
  cases b
  all_goals
    simp only [fullTrace, proj_append_fits, fitsOf_loopTrace]
    simp [preTrace, fitsOf, bucketExistsMsg]

lemma sleepsOf_fullTrace (env : Env) (b : Bool) :
    sleepsOf (fullTrace env b) = List.replicate (pyLines env.testSample).length 500 := by
  cases b
  all_goals
    simp only [fullTrace, proj_append_sleeps, sleepsOf_loopTrace]
    simp [preTrace, sleepsOf, bucketExistsMsg]

lemma bucketCreatesOf_fullTrace (env : Env) (b : Bool) :
    bucketCreatesOf (fullTrace env b) = [(bucket env, bucketLocation env)] := by
  cases b
  all_goals
    simp only [fullTrace, proj_append_bucketCreates, bucketCreatesOf_loopTrace]
    simp [preTrace, bucketCreatesOf, bucketExistsMsg]

lemma reqDelayProj_fullTrace (env : Env) (b : Bool) :
    reqDelayProj (fullTrace env b)
      = ((pyLines env.testSample).map (fun r =>
          [Effect.invokeEndpoint (endpoint_name env) (rstripNewlines r),
           Effect.sleepMs 500])).flatten := by
  cases b
  all_goals
    simp only [fullTrace, proj_append_reqDelay, reqDelayProj_loopTrace]
    simp [preTrace, reqDelayProj, bucketExistsMsg]

lemma usesFramework_fullTrace (env : Env) (b : Bool) :
    (fullTrace env b).filter (usesModel TrainMode.frameworkMode)
      = [Effect.trainingJob TrainMode.frameworkMode env.imageUri
          (some "xgboost_customer_churn.py") hyperparams (channels env)] := by
  cases b
  all_goals
    simp only [fullTrace, List.filter_append, usesModel_loopTrace]
    simp [preTrace, usesModel, bucketExistsMsg]

lemma getLast_fullTrace (env : Env) (b : Bool) :
    (fullTrace env b).getLast? = some (Effect.deleteEndpoint (endpoint_name env)) := by
  unfold fullTrace
  rw [List.getLast?_concat]

/-- C3: for every line of the test-sample file exactly one inference request is
sent, in file order, whose payload is the line with all trailing newline
characters removed (every other character, commas and carriage returns
included, unchanged); the request count equals the line count, and the trace
decomposes so that each request is immediately followed by printing the
response and the fixed sleep. -/
theorem inferencePerLine (env : Env) :
    payloadsOf (notebookTrace env) = (pyLines env.testSample).map rstripNewlines ∧
    (payloadsOf (notebookTrace env)).length = (pyLines env.testSample).length ∧
    notebookTrace env
      = preTrace env false ++ loopTrace env (pyLines env.testSample)
          ++ [Effect.deleteEndpoint (endpoint_name env)] := by
  have h1 : payloadsOf (notebookTrace env) = (pyLines env.testSample).map rstripNewlines := by
    rw [notebookTrace_eq, payloadsOf_fullTrace]
  refine ⟨h1, ?_, ?_⟩
  · rw [h1, List.length_map]
  · rw [notebookTrace_eq]
    rfl

/-- C4: the only deployment in the program deploys the algorithm-mode
estimator's model, and the framework-mode model appears in no effect other
than its own training-job submission: it is never deployed, invoked, or used
after its fit call. -/
theorem onlyAlgorithmModelDeployed (env : Env) :
    deploysOf (notebookTrace env) = [(endpoint_name env, TrainMode.algorithmMode)] ∧
    (notebookTrace env).filter (usesModel TrainMode.frameworkMode)
      = [Effect.trainingJob TrainMode.frameworkMode env.imageUri
          (some "xgboost_customer_churn.py") hyperparams (channels env)] := by
  rw [notebookTrace_eq, deploysOf_fullTrace, usesFramework_fullTrace]
  exact ⟨rfl, rfl⟩

/-- C5: the projection of the trace onto requests and sleeps is, per test line,
one request followed by one 500 ms sleep, so the same fixed 0.5 s delay
separates every pair of successive requests; and every sleep the program
performs is that one constant. -/
theorem fixedDelayBetweenRequests (env : Env) :
    reqDelayProj (notebookTrace env)
      = ((pyLines env.testSample).map (fun r =>
          [Effect.invokeEndpoint (endpoint_name env) (rstripNewlines r),
           Effect.sleepMs 500])).flatten ∧
    sleepsOf (notebookTrace env) = List.replicate (pyLines env.testSample).length 500 := by
  rw [notebookTrace_eq, reqDelayProj_fullTrace, sleepsOf_fullTrace]
  exact ⟨rfl, rfl⟩

/-- C6: both training-job submissions carry the hyperparameter mapping and the
same two channels, named train and validation, both of content type csv; the
train channel URI is exactly the train upload URI and the validation channel
URI is the validation upload URI with a trailing slash (the same bucket path,
written as a key prefix). -/
theorem trainingChannelsCsv (env : Env) :
    fitsOf (notebookTrace env)
      = [(TrainMode.algorithmMode, hyperparams, channels env),
         (TrainMode.frameworkMode, hyperparams, channels env)] ∧
    channels env = [s3_input_train env, s3_input_validation env] ∧
    (s3_input_train env).name = "train" ∧
    (s3_input_train env).contentType = "csv" ∧
    (s3_input_train env).s3Uri = trainUploadUri env ∧
    (s3_input_validation env).name = "validation" ∧
    (s3_input_validation env).contentType = "csv" ∧
    (s3_input_validation env).s3Uri = validationUploadUri env ++ "/" := by
  refine ⟨?_, rfl, rfl, rfl, rfl, rfl, rfl, ?_⟩
  · rw [notebookTrace_eq, fitsOf_fullTrace]
  · show ("s3://" ++ bucket env ++ "/xgboost-churn/validation/" : String)
        = ("s3://" ++ bucket env ++ "/xgboost-churn/validation") ++ "/"
    conv_rhs => rw [String.append_assoc]
    rfl

/-- C7: exactly two uploads occur in the whole program, the train and
validation CSV splits, to the two distinct train/validation paths under the
same bucket and xgboost-churn key prefix. -/
theorem uploadsExactlyTwoCsv (env : Env) :
    uploadsOf (notebookTrace env)
      = [("data/train.csv", trainUploadUri env),
         ("data/validation.csv", validationUploadUri env)] ∧
    trainUploadUri env ≠ validationUploadUri env := by
  constructor
  · rw [notebookTrace_eq, uploadsOf_fullTrace]
  · intro h
    have hl := congrArg String.length h
    rw [trainUploadUri, validationUploadUri] at hl
    simp only [String.length_append] at hl
    have e1 : ("/xgboost-churn/train" : String).length = 20 := rfl
    have e2 : ("/xgboost-churn/validation" : String).length = 25 := rfl
    rw [e1, e2] at hl
    omega

/-- C8: the endpoint identifier is the fixed text demo-xgboost-customer-churn-
followed by the formatted creation timestamp, and that same string names the
deployment, every inference request, and the deletion. -/
theorem endpointNameTimestamped (env : Env) :
    endpoint_name env = "demo-xgboost-customer-churn-" ++ env.timestamp ∧
    deploysOf (notebookTrace env) = [(endpoint_name env, TrainMode.algorithmMode)] ∧
    invokesOf (notebookTrace env)
      = (pyLines env.testSample).map (fun r => (endpoint_name env, rstripNewlines r)) ∧
    deletesOf (notebookTrace env) = [endpoint_name env] := by
  rw [notebookTrace_eq, deploysOf_fullTrace, invokesOf_fullTrace, deletesOf_fullTrace]
  exact ⟨rfl, rfl, rfl, rfl⟩

/-- C9: the teardown deletes, by name, exactly the endpoint the program
created (the endpoint the predictor was deployed to), deletes nothing else,
and is the final external action of the run. -/
theorem teardownDeletesOnlyCreatedEndpoint (env : Env) :
    (notebookTrace env).getLast? = some (Effect.deleteEndpoint (endpoint_name env)) ∧
    deletesOf (notebookTrace env) = [endpoint_name env] ∧
    deploysOf (notebookTrace env) = [(endpoint_name env, TrainMode.algorithmMode)] := by
  rw [notebookTrace_eq, getLast_fullTrace, deletesOf_fullTrace, deploysOf_fullTrace]
  exact ⟨rfl, rfl, rfl⟩

/-- C10: exactly one bucket creation occurs, for the bucket named
sagemaker-region-account; when the region is us-east-1 it carries no location
constraint, and for every other region a LocationConstraint equal to that
region. -/
theorem bucketCreationRegionSensitive (env : Env) :
    bucketCreatesOf (notebookTrace env)
      = [("sagemaker-" ++ env.region ++ "-" ++ env.accountId,
          if env.region = "us-east-1" then none else some env.region)] ∧
    bucket env = "sagemaker-" ++ env.region ++ "-" ++ env.accountId := by
  rw [notebookTrace_eq, bucketCreatesOf_fullTrace]
  exact ⟨rfl, rfl⟩

/-- C2: on every run that completes, the seven steps of the linear flow (local
CSV read, the two uploads, hyperparameter construction, the two training
submissions with algorithm mode first, deployment, the request loop, teardown)
are issued in exactly that order: the step projection of the trace is the
canonical ascending sequence, hence monotone, and the training modes appear as
algorithm mode then framework mode. -/
theorem stepsIssuedInSpecOrder (env : Env) (fa : Option Nat)
    (h : (runNotebook env fa).2 = Except.ok ()) :
    ((runNotebook env fa).1.filterMap stepOf
        = [1, 2, 2, 3, 4, 4, 5] ++ (List.replicate (pyLines env.testSample).length 6 ++ [7])) ∧
    List.Chain' (fun a b => a ≤ b) ((runNotebook env fa).1.filterMap stepOf) ∧
    trainModesOf (runNotebook env fa).1
      = [TrainMode.algorithmMode, TrainMode.frameworkMode] := by
  rcases run_complete_cases env fa h with h' | h' <;>
    rw [h', stepOf_fullTrace, trainModesOf_fullTrace] <;>
    exact ⟨rfl, chain_canonical _, rfl⟩

/-- A concrete environment (region, account, timestamp, two-line test file,
constant responder) on which the runs evaluate, used by the witnesses. -/
def sampleEnv : Env :=
  { region := "ap-southeast-2"
    accountId := "123456789012"
    timestamp := "2020-01-01-00-00-00"
    testSample := "1,2,3\n4,5,6\n"
    respond := fun _ => "0.03"
    imageUri := "xgboost-container-image" }

theorem stepsIssuedInSpecOrder_witness :
    (runNotebook sampleEnv none).2 = Except.ok () ∧
    List.Chain' (fun a b => a ≤ b) ((runNotebook sampleEnv none).1.filterMap stepOf) := by
  have h : (runNotebook sampleEnv none).2 = Except.ok () := by rw [run_none]
  exact ⟨h, (stepsIssuedInSpecOrder sampleEnv none h).2.1⟩

/-- C1: the only error handling is the broad catch around bucket creation:
when that call (index 2) raises, the consolation message is printed, the run
still completes normally, and in particular both uploads are still performed;
whereas a failure of any other external call (any index other than 2 among the
program's calls: local read, identity lookup, uploads, image lookup, the two
training submissions, deployment, file open, each request, deletion) escapes
the program uncaught as that call's exception. -/
theorem errorHandlingOnlyBucketCreation (env : Env) (j : Nat)
    (hne : j ≠ 2) (hlt : j < numCalls env) :
    runNotebook env (some 2) = ⟨fullTrace env true, Except.ok ()⟩ ∧
    bucketExistsMsg ∈ (runNotebook env (some 2)).1 ∧
    uploadsOf (runNotebook env (some 2)).1
      = [("data/train.csv", trainUploadUri env),
         ("data/validation.csv", validationUploadUri env)] ∧
    (runNotebook env (some j)).2 = Except.error j := by
  have hb := run_bucket_fail env
  refine ⟨hb, ?_, ?_, run_err env j hne hlt⟩
  · rw [hb]
    simp [fullTrace, preTrace]
  · rw [hb]
    exact uploadsOf_fullTrace env true

theorem errorHandlingOnlyBucketCreation_witness :
    (0 : Nat) ≠ 2 ∧ 0 < numCalls sampleEnv ∧
    (runNotebook sampleEnv (some 2)).2 = Except.ok () ∧
    (runNotebook sampleEnv (some 0)).2 = Except.error 0 := by
  have h2 : (0 : Nat) ≠ 2 := by decide
  have hlt : 0 < numCalls sampleEnv :=
    Nat.lt_of_lt_of_le (by decide) (Nat.le_add_right 11 _)
  have hmain := errorHandlingOnlyBucketCreation sampleEnv 0 h2 hlt
  refine ⟨h2, hlt, ?_, hmain.2.2.2⟩
  rw [hmain.1]
